import Mathlib

/-!
Verification development for `extract_conversations.py` (cursor-journal).

The Python source is shallowly embedded: JSON values become the inductive
`JVal`, Python strings are Lean `String`s (operated on through their
character lists so that everything computes in the kernel), fallible Python
code becomes `Except PyExc`, and the SQLite key-value table becomes an
association list.  Machine-level details that the claims do not touch are
modeled as documented at each definition (the local timezone is modeled as
UTC, JSON numeric literals are modeled as integers).
-/

namespace CursorJournal

/-- A JSON value, as produced by Python's `json.loads`.  Numeric literals
are modeled as integers; fractional literals are out of scope (floating
point) and are treated as parse failures by `json_loads`. -/
inductive JVal where
  | null
  | bool (b : Bool)
  | num (n : Int)
  | str (s : String)
  | arr (elems : List JVal)
  | obj (fields : List (String × JVal))

/-- Python exceptions that the embedded code can raise. -/
inductive PyExc where
  | attributeError
  | typeError
  | keyError
  | sqliteError (msg : String)
deriving DecidableEq, Repr

/-- Dictionary lookup (`d[k]` / `d.get(k)`).  Objects built by `json_loads`
have unique keys, mirroring Python dicts. -/
def getField : List (String × JVal) → String → Option JVal
  | [], _ => none
  | (k2, v) :: rest, k => if k2 = k then some v else getField rest k

/-- Python truthiness of a JSON value. -/
def truthy : JVal → Bool
  | .null => false
  | .bool b => b
  | .num n => n != 0
  | .str s => s ≠ ""
  | .arr xs => !xs.isEmpty
  | .obj kvs => !kvs.isEmpty

/-- Python `x == 1` on a JSON value (line 47 of the source).  Python's
`bool` is a subclass of `int`, so `True == 1` holds. -/
def eqOne : Option JVal → Bool
  | some (.num n) => n == 1
  | some (.bool b) => b
  | _ => false

/-- Python `x == "text"` on an optional JSON value (line 31 of the source). -/
def isTextType : Option JVal → Bool
  | some (.str s) => s == "text"
  | _ => false

/-- The integer value of a JSON value under Python's numeric comparisons
(`True` compares as 1, `False` as 0); `none` when a comparison with an
`int` would raise `TypeError`. -/
def pyNumVal : JVal → Option Int
  | .num n => some n
  | .bool b => some (if b then 1 else 0)
  | _ => none

def isStrVal : JVal → Bool
  | .str _ => true
  | _ => false

def strVal : JVal → String
  | .str s => s
  | _ => ""

/-- Python `len` on a JSON value. -/
def pyLen : JVal → Except PyExc Nat
  | .str s => .ok s.length
  | .arr xs => .ok xs.length
  | .obj kvs => .ok kvs.length
  | _ => .error .typeError

/-! ## Python string operations, implemented structurally on `List Char` -/

/-- Whether `cs` begins with `pat` (`listStartsWith pat cs`). -/
def listStartsWith : List Char → List Char → Bool
  | [], _ => true
  | _ :: _, [] => false
  | p :: ps, c :: cs => p == c && listStartsWith ps cs

/-- Python `s.startswith(pat)`. -/
def pyStartswith (s pat : String) : Bool :=
  listStartsWith pat.data s.data

/-- Python `s.split(sep)` for a single-character separator (line 75 uses
`"/"`): splits at every occurrence, keeping empty pieces. -/
def pySplitChar (sep : Char) : List Char → List (List Char)
  | [] => [[]]
  | c :: rest =>
    match pySplitChar sep rest with
    | [] => [[]]
    | g :: gs => if c == sep then [] :: g :: gs else (c :: g) :: gs

/-- Python `s.replace(pat, "")` on character lists: removes every
(left-to-right, non-overlapping) occurrence of the non-empty pattern.
`fuel` is consumed one unit per character examined, so `cs.length`
suffices. -/
def pyRemoveAux (pat : List Char) : Nat → List Char → List Char
  | 0, cs => cs
  | _ + 1, [] => []
  | fuel + 1, c :: rest =>
    if listStartsWith pat (c :: rest) then
      pyRemoveAux pat fuel ((c :: rest).drop pat.length)
    else
      c :: pyRemoveAux pat fuel rest

/-- Python `s.replace(pat, "")` (line 74 of the source). -/
def pyRemove (s pat : String) : String :=
  String.mk (pyRemoveAux pat.data s.data.length s.data)

/-- Python `sep.join(pieces)` on character lists. -/
def joinWith (sep : List Char) : List (List Char) → List Char
  | [] => []
  | [x] => x
  | x :: y :: rest => x ++ sep ++ joinWith sep (y :: rest)

/-- Python whitespace for `str.strip()`. -/
def isPyWs (c : Char) : Bool :=
  c == ' ' || c == '\t' || c == '\n' || c == '\r' || c == '\x0b' || c == '\x0c'

/-- Python `s.strip()`. -/
def pyStrip (s : String) : String :=
  String.mk (((s.data.dropWhile isPyWs).reverse.dropWhile isPyWs).reverse)

def digitChar (n : Nat) : Char := Char.ofNat (48 + n % 10)

/-- Decimal digits of `n`; `fuel` bounds the number of digits, so `n + 1`
always suffices. -/
def natDigitsAux : Nat → Nat → List Char
  | 0, _ => []
  | fuel + 1, n => if n < 10 then [digitChar n] else natDigitsAux fuel (n / 10) ++ [digitChar (n % 10)]

def natToStr (n : Nat) : String := String.mk (natDigitsAux (n + 1) n)

/-- Python `str` of an `int`. -/
def intToStr (i : Int) : String :=
  if i < 0 then "-" ++ natToStr (-i).toNat else natToStr i.toNat

/-- Two-digit zero-padded rendering (`"%02d"` for values below 100). -/
def pad2 (n : Nat) : String := String.mk [digitChar (n / 10), digitChar (n % 10)]

/-- Models line 145, `datetime.fromtimestamp(ms / 1000).strftime("%H:%M")`.
The local timezone is modeled as UTC and sub-second fractions are
discarded; no claim depends on the rendered value. -/
def formatHM (ms : Int) : String :=
  let secs := ms.fdiv 1000
  pad2 ((secs.fdiv 3600).emod 24).toNat ++ ":" ++ pad2 ((secs.fdiv 60).emod 60).toNat

/-- Number of nodes of a JSON value (an upper bound on nesting depth). -/
def jvalSize : JVal → Nat
  | .null => 1
  | .bool _ => 1
  | .num _ => 1
  | .str _ => 1
  | .arr xs => 1 + (xs.attach.map fun x => jvalSize x.1).sum
  | .obj kvs => 1 + (kvs.attach.map fun p => jvalSize p.1.2).sum
decreasing_by
  · have h := List.sizeOf_lt_of_mem x.2
    simp only [JVal.arr.sizeOf_spec]
    omega
  · have h := List.sizeOf_lt_of_mem p.2
    simp only [JVal.obj.sizeOf_spec]
    have h2 : sizeOf p.1.2 < sizeOf p.1 := by
      obtain ⟨⟨a, b⟩, hp⟩ := p
      simp only [Prod.mk.sizeOf_spec]
      omega
    omega

/-- Python `repr` of a JSON value, used by `str` on lists and dicts.
`fuel` bounds the nesting depth (`jvalSize v` is always enough); string
escaping inside `repr` is not modeled.  Only pathological records (a
`bubbleId` that is itself a list or dict) ever reach this. -/
def jsonReprF : Nat → JVal → String
  | 0, _ => ""
  | fuel + 1, v =>
    match v with
    | .null => "None"
    | .bool true => "True"
    | .bool false => "False"
    | .num n => intToStr n
    | .str s => "\x27" ++ s ++ "\x27"
    | .arr xs => "[" ++ String.mk (joinWith [',', ' '] (xs.map fun x => (jsonReprF fuel x).data)) ++ "]"
    | .obj kvs =>
        "\x7b" ++
          String.mk (joinWith [',', ' ']
            (kvs.map fun p => ("\x27" ++ p.1 ++ "\x27: " ++ jsonReprF fuel p.2).data)) ++
        "\x7d"

/-- Python `str()` of a JSON value, as used by the f-string on line 50. -/
def pyStr (v : JVal) : String :=
  match v with
  | .str s => s
  | .num n => intToStr n
  | .bool true => "True"
  | .bool false => "False"
  | .null => "None"
  | .arr xs => jsonReprF (jvalSize (.arr xs)) (.arr xs)
  | .obj kvs => jsonReprF (jvalSize (.obj kvs)) (.obj kvs)

/-! ## `json.loads`, a recursive-descent JSON parser

Fuel-structural so that it evaluates in the kernel.  Modeling choices:
numeric literals must be integers (fractional and exponent forms, and the
non-standard `NaN`/`Infinity` accepted by Python, are treated as parse
failures — floating point is out of scope); `\uXXXX` escapes decode to the
corresponding scalar value without surrogate-pair combination. -/

/-- JSON structural whitespace. -/
def skipWs : List Char → List Char
  | [] => []
  | c :: rest => if c == ' ' || c == '\t' || c == '\n' || c == '\r' then skipWs rest else c :: rest

def hexVal (c : Char) : Option Nat :=
  if '0' ≤ c && c ≤ '9' then some (c.toNat - 48)
  else if 'a' ≤ c && c ≤ 'f' then some (c.toNat - 87)
  else if 'A' ≤ c && c ≤ 'F' then some (c.toNat - 55)
  else none

/-- Body of a JSON string literal (after the opening quote); returns the
decoded characters and the remainder after the closing quote. -/
def parseStrAux : List Char → Option (List Char × List Char)
  | [] => none
  | '"' :: rest => some ([], rest)
  | '\\' :: 'u' :: a :: b :: c :: d :: rest => do
    let ha ← hexVal a
    let hb ← hexVal b
    let hc ← hexVal c
    let hd ← hexVal d
    let (cs, rem) ← parseStrAux rest
    some (Char.ofNat (((ha * 16 + hb) * 16 + hc) * 16 + hd) :: cs, rem)
  | '\\' :: e :: rest => do
    let c ← match e with
      | '"' => some '"'
      | '\\' => some '\\'
      | '/' => some '/'
      | 'b' => some '\x08'
      | 'f' => some '\x0c'
      | 'n' => some '\n'
      | 'r' => some '\r'
      | 't' => some '\t'
      | _ => none
    let (cs, rem) ← parseStrAux rest
    some (c :: cs, rem)
  | c :: rest =>
    if c.toNat < 32 then none
    else do
      let (cs, rem) ← parseStrAux rest
      some (c :: cs, rem)

def isDigit (c : Char) : Bool := '0' ≤ c && c ≤ '9'

def digitsToNat : List Char → Nat
  | [] => 0
  | c :: rest => (c.toNat - 48) * 10 ^ rest.length + digitsToNat rest

/-- A JSON integer literal (strict grammar: no leading zeros, and a
following `.`/`e`/`E` makes it a float, which this model rejects). -/
def parseNumber (cs : List Char) : Option (JVal × List Char) :=
  let (neg, body) := match cs with
    | '-' :: rest => (true, rest)
    | _ => (false, cs)
  let digits := body.takeWhile isDigit
  let rest := body.dropWhile isDigit
  if digits.isEmpty then none
  else if digits.length > 1 && digits.head? = some '0' then none
  else match rest with
    | '.' :: _ => none
    | 'e' :: _ => none
    | 'E' :: _ => none
    | _ =>
      let n : Int := Int.ofNat (digitsToNat digits)
      some (.num (if neg then -n else n), rest)

/-- Insert into a JSON object the way Python dicts do on duplicate keys:
the first occurrence keeps its position, the value is updated. -/
def objInsert (kvs : List (String × JVal)) (k : String) (v : JVal) : List (String × JVal) :=
  if kvs.any (fun p => p.1 = k) then
    kvs.map (fun p => if p.1 = k then (k, v) else p)
  else
    kvs ++ [(k, v)]

/-- Array elements after the first `[`, given a parser `pv` for one value.
`fuel` bounds the element count. -/
def parseElemsStep (pv : List Char → Option (JVal × List Char)) :
    Nat → List Char → List JVal → Option (JVal × List Char)
  | 0, _, _ => none
  | fuel + 1, cs, acc => do
    let (v, rest) ← pv (skipWs cs)
    match skipWs rest with
    | ',' :: rest2 => parseElemsStep pv fuel rest2 (acc ++ [v])
    | ']' :: rest2 => some (.arr (acc ++ [v]), rest2)
    | _ => none

/-- Object members after the first `\x7b`. -/
def parseMembersStep (pv : List Char → Option (JVal × List Char)) :
    Nat → List Char → List (String × JVal) → Option (JVal × List Char)
  | 0, _, _ => none
  | fuel + 1, cs, acc =>
    match skipWs cs with
    | '"' :: rest => do
      let (kcs, rest2) ← parseStrAux rest
      match skipWs rest2 with
      | ':' :: rest3 => do
        let (v, rest4) ← pv (skipWs rest3)
        let acc2 := objInsert acc (String.mk kcs) v
        match skipWs rest4 with
        | ',' :: rest5 => parseMembersStep pv fuel rest5 acc2
        | '\x7d' :: rest5 => some (.obj acc2, rest5)
        | _ => none
      | _ => none
    | _ => none

/-- One JSON value.  All recursion is structural on `fuel`. -/
def parseValueF : Nat → List Char → Option (JVal × List Char)
  | 0, _ => none
  | fuel + 1, cs =>
    match cs with
    | [] => none
    | c :: rest =>
      if c == '\x7b' then
        match skipWs rest with
        | '\x7d' :: rest2 => some (.obj [], rest2)
        | _ => parseMembersStep (parseValueF fuel) fuel rest []
      else if c == '[' then
        match skipWs rest with
        | ']' :: rest2 => some (.arr [], rest2)
        | _ => parseElemsStep (parseValueF fuel) fuel rest []
      else if c == '"' then do
        let (scs, rem) ← parseStrAux rest
        some (.str (String.mk scs), rem)
      else if listStartsWith ['t', 'r', 'u', 'e'] cs then
        some (.bool true, cs.drop 4)
      else if listStartsWith ['f', 'a', 'l', 's', 'e'] cs then
        some (.bool false, cs.drop 5)
      else if listStartsWith ['n', 'u', 'l', 'l'] cs then
        some (.null, cs.drop 4)
      else
        parseNumber cs

/-- Python `json.loads`: parse a complete JSON document (line 27, 57, 117).
`none` models `json.JSONDecodeError`. -/
def json_loads (s : String) : Option JVal :=
  match parseValueF (2 * s.data.length + 8) (skipWs s.data) with
  | some (v, rest) => if (skipWs rest).isEmpty then some v else none
  | none => none

/-! ## RichText decoder (`extract_text_from_richtext`, lines 24-41)

`extract_text_nodes` visits nodes depth-first pre-order, appending
`node["text"]` when `node.get("type") == "text" and "text" in node`, then
recursing into `node.get("children", [])`.  The Python `try` at line 26
catches only `json.JSONDecodeError`, `KeyError` and `TypeError`:

* a non-dict node makes `node.get` raise `AttributeError` (uncaught);
* iterating a string or dict `children` yields strings, so the first
  recursive call on them raises `AttributeError` (uncaught) unless they
  are empty;
* iterating a number/bool/null `children` raises `TypeError` (caught);
* a non-string collected text makes `" ".join` raise `TypeError` (caught).
-/

/-- The depth-first pre-order traversal of lines 30-34, as a worklist.
Raw (possibly non-string) collected `"text"` values are returned in visit
order.  `fuel` bounds the number of nodes; callers pass the JSON string
length bound, which dominates the node count of any parsed value. -/
def extractTextNodes : Nat → List JVal → Except PyExc (List JVal)
  | _, [] => .ok []
  | 0, _ => .ok []
  | fuel + 1, node :: rest =>
    match node with
    | .obj kvs =>
      let own : List JVal :=
        if isTextType (getField kvs "type") && (getField kvs "text").isSome then
          match getField kvs "text" with
          | some t => [t]
          | none => []
        else []
      match getField kvs "children" with
      | none => (extractTextNodes fuel rest).map (own ++ ·)
      | some (.arr xs) => (extractTextNodes fuel (xs ++ rest)).map (own ++ ·)
      | some (.str s) =>
        if s = "" then (extractTextNodes fuel rest).map (own ++ ·)
        else .error .attributeError
      | some (.obj kvs2) =>
        if kvs2.isEmpty then (extractTextNodes fuel rest).map (own ++ ·)
        else .error .attributeError
      | some _ => .error .typeError
    | _ => .error .attributeError

/-- Python `" ".join(texts)`: `TypeError` when any element is not a
string. -/
def pyJoinSpace (xs : List JVal) : Except PyExc String :=
  if xs.all isStrVal then
    .ok (String.mk (joinWith [' '] (xs.map fun x => (strVal x).data)))
  else .error .typeError

/-- The exception classes caught by the `except` on line 40
(`json.JSONDecodeError` is represented by `json_loads` returning `none`). -/
def richtextCaught : PyExc → Bool
  | .keyError => true
  | .typeError => true
  | _ => false

/-- Lines 24-41.  A result `.error e` models an exception escaping the
Python function.  For a non-dict top level the function always returns
`""`: either the `"root" in data` membership test fails, or it raises
`TypeError` (string/int/list indexing), which the `except` catches. -/
def extract_text_from_richtext (richtext_json : String) : Except PyExc String :=
  match json_loads richtext_json with
  | none => .ok ""
  | some (.obj kvs) =>
    match getField kvs "root" with
    | none => .ok ""
    | some root =>
      match extractTextNodes (2 * richtext_json.data.length + 8) [root] with
      | .error e => if richtextCaught e then .ok "" else .error e
      | .ok texts =>
        match pyJoinSpace texts with
        | .error e => if richtextCaught e then .ok "" else .error e
        | .ok j => .ok (pyStrip j)
  | some _ => .ok ""

/-- Line 60 when `richtext` is not a string: `json.loads` raises
`TypeError`, which the decoder's own `except` catches, yielding `""`. -/
def extractTextVal : JVal → Except PyExc String
  | .str s => extract_text_from_richtext s
  | _ => .ok ""

/-! ## Record Reader (`get_first_user_message`, lines 44-66) -/

/-- The point query `SELECT value FROM cursorDiskKV WHERE key = ?` plus
`fetchone()`: `none` means no row, `some none` a row with SQL `NULL`. -/
def lookupKV (store : List (String × Option String)) (k : String) : Option (Option String) :=
  (store.find? (fun r => r.1 = k)).map Prod.snd

/-- Python `text[:500] + "..." if len(text) > 500 else text` (line 63). -/
def truncateMessage (text : String) : String :=
  if 500 < text.length then String.mk (text.data.take 500) ++ "..." else text

/-- The exceptions caught by the `except` on line 64. -/
def bubbleCaught : PyExc → Bool
  | .typeError => true
  | _ => false

/-- The `for bubble in bubbles` loop of lines 46-65.  A non-dict bubble
raises `AttributeError` at `bubble.get` (line 47), uncaught.  A bubble
body that parses to a non-dict raises `AttributeError` at
`bubble_data.get` (line 58), which the `except (json.JSONDecodeError,
TypeError)` does not catch. -/
def scanBubbles (store : List (String × Option String)) (cid : JVal) :
    List JVal → Except PyExc String
  | [] => .ok ""
  | b :: rest =>
    match b with
    | .obj kvs =>
      if eqOne (getField kvs "type") then
        match getField kvs "bubbleId" with
        | some bid =>
          if truthy bid then
            match lookupKV store ("bubbleId:" ++ pyStr cid ++ ":" ++ pyStr bid) with
            | some (some v) =>
              if v = "" then scanBubbles store cid rest
              else
                match json_loads v with
                | none => scanBubbles store cid rest
                | some (.obj bkvs) =>
                  let richtext := (getField bkvs "richText").getD (.str "")
                  if truthy richtext then
                    match extractTextVal richtext with
                    | .ok text =>
                      if text = "" then scanBubbles store cid rest
                      else .ok (truncateMessage text)
                    | .error e =>
                      if bubbleCaught e then scanBubbles store cid rest else .error e
                  else scanBubbles store cid rest
                | some _ => .error .attributeError
            | some none => scanBubbles store cid rest
            | none => scanBubbles store cid rest
          else scanBubbles store cid rest
        | none => scanBubbles store cid rest
      else scanBubbles store cid rest
    | _ => .error .attributeError

/-- Lines 44-66.  `bubbles` is whatever
`data.get("fullConversationHeadersOnly", [])` produced; iterating a
string yields its characters and a dict its keys (both strings, so a
non-empty one raises `AttributeError` at `bubble.get`), and iterating any
other non-list raises `TypeError`. -/
def get_first_user_message (store : List (String × Option String)) (cid : JVal)
    (bubbles : JVal) : Except PyExc String :=
  match bubbles with
  | .arr bs => scanBubbles store cid bs
  | .str s => if s = "" then .ok "" else .error .attributeError
  | .obj kvs => if kvs.isEmpty then .ok "" else .error .attributeError
  | _ => .error .typeError

/-! ## Workspace Inferencer (`get_workspace_from_uri`, lines 69-83) -/

/-- The inner loop of lines 77-79: the first index `i` with
`parts[i] == "workspace"` and `i + 2 < len(parts)`. -/
def findWorkspaceIdx (n : Nat) : List String → Nat → Option Nat
  | [], _ => none
  | p :: rest, i => if p = "workspace" && i + 2 < n then some i else findWorkspaceIdx n rest (i + 1)

/-- Lines 69-83, over the dict's key list in iteration order.  Note the
Python loop falls through to the next key when a `file:///` key yields
neither heuristic; `None` is returned only after the loop. -/
def get_workspace_from_uri : List String → Option String
  | [] => none
  | k :: rest =>
    if pyStartswith k "file:///" then
      let parts := (pySplitChar '/' (pyRemove k "file://").data).map String.mk
      match findWorkspaceIdx parts.length parts 0 with
      | some i => some (String.mk (joinWith ['/'] ((parts.take (i + 3)).map String.data)))
      | none =>
        if parts.length > 4 then
          some (String.mk (joinWith ['/'] ((parts.take 5).map String.data)))
        else get_workspace_from_uri rest
    else get_workspace_from_uri rest

/-! ## Extraction Pipeline (`extract_todays_conversations`, lines 86-168)

The date computation of lines 95-102 depends on the wall clock and the
local timezone; the pipeline is therefore embedded from the computed
window `[startMs, endMs)` on (the claims about the window are stated in
those terms).  The SQLite database is an association list of
`(key, value)` rows in table-scan order, plus a flag for the `.exists()`
check and an optional storage error for `execute`/`fetchall`. -/

/-- One conversation summary (the dict built on lines 147-157).
`timestamp_ms` stores the numeric value of the raw `createdAt` (which is
necessarily an `int` — or a `bool`, counting as 0/1 — whenever this dict
is built, since line 126 would have raised `TypeError` otherwise). -/
structure Summary where
  id : JVal
  name : JVal
  created_at : String
  timestamp_ms : Int
  status : JVal
  model : JVal
  message_count : Nat
  first_message : String
  workspace : Option String

/-- Python's chained `lo <= x < hi` against ints: `TypeError` unless `x`
is numeric (`bool` counts as 0/1). -/
def chainLeLt (lo : Int) (x : JVal) (hi : Int) : Except PyExc Bool :=
  match pyNumVal x with
  | some n => .ok (decide (lo ≤ n) && decide (n < hi))
  | none => .error .typeError

/-- Line 126: `(start_ms <= created_at < end_ms) or (start_ms <=
last_updated < end_ms)`, with Python's left-to-right evaluation and
short-circuiting `or`. -/
def windowCheck (startMs endMs : Int) (c u : JVal) : Except PyExc Bool :=
  match chainLeLt startMs c endMs with
  | .error e => .error e
  | .ok true => .ok true
  | .ok false => chainLeLt startMs u endMs

/-- Lines 130-157: assemble one summary from a parsed record object.
`data.get` defaults mirror lines 130-136; a non-dict `modelConfig` or
`codeBlockData` raises `AttributeError` at its `.get`/`.keys()`. -/
def buildSummary (store : List (String × Option String))
    (kvs : List (String × JVal)) : Except PyExc Summary := do
  let createdAt := (getField kvs "createdAt").getD (.num 0)
  let composerId := (getField kvs "composerId").getD (.str "")
  let name := (getField kvs "name").getD (.str "Untitled conversation")
  let status := (getField kvs "status").getD (.str "unknown")
  let bubbles := (getField kvs "fullConversationHeadersOnly").getD (.arr [])
  let modelConfig := (getField kvs "modelConfig").getD (.obj [])
  let modelName ← match modelConfig with
    | .obj m => pure ((getField m "modelName").getD (.str "unknown"))
    | _ => .error .attributeError
  let codeBlockData := (getField kvs "codeBlockData").getD (.obj [])
  let firstMessage ← get_first_user_message store composerId bubbles
  let workspace ← match codeBlockData with
    | .obj m => pure (get_workspace_from_uri (m.map Prod.fst))
    | _ => .error .attributeError
  let createdTime ← if truthy createdAt then
      match pyNumVal createdAt with
      | some n => pure (formatHM n)
      | none => .error .typeError
    else pure "unknown"
  let count ← pyLen bubbles
  pure
    { id := composerId
      name := name
      created_at := createdTime
      timestamp_ms := (pyNumVal createdAt).getD 0
      status := status
      model := modelName
      message_count := count
      first_message := firstMessage
      workspace := workspace }

/-- Lines 112-157, the body of the scan loop for one row's `value`:
`.ok none` models `continue`, `.ok (some s)` models appending to
`conversations`, `.error` models an exception escaping the loop.  A
record that parses to a non-dict raises `AttributeError` at
`data.get("createdAt", 0)` (line 122), which nothing inside the `try`
catches. -/
def processRecord (store : List (String × Option String)) (startMs endMs : Int)
    (value : Option String) : Except PyExc (Option Summary) :=
  match value with
  | none => .ok none
  | some v =>
    if v = "" then .ok none
    else
      match json_loads v with
      | none => .ok none
      | some (.obj kvs) =>
        match windowCheck startMs endMs ((getField kvs "createdAt").getD (.num 0))
            ((getField kvs "lastUpdatedAt").getD (.num 0)) with
        | .error e => .error e
        | .ok true =>
          match buildSummary store kvs with
          | .error e => .error e
          | .ok s => .ok (some s)
        | .ok false => .ok none
      | some _ => .error .attributeError

/-- The `for key, value in cursor.fetchall()` loop, in scan order. -/
def processRows (store : List (String × Option String)) (startMs endMs : Int) :
    List (String × Option String) → Except PyExc (List Summary)
  | [] => .ok []
  | (_, v) :: rest =>
    match processRecord store startMs endMs v with
    | .error e => .error e
    | .ok o =>
      match processRows store startMs endMs rest with
      | .error e => .error e
      | .ok others =>
        match o with
        | some s => .ok (s :: others)
        | none => .ok others

/-- The SQLite database `state.vscdb`.  `present` models
`db_path.exists()`; `scanError` (when set) models a `sqlite3.Error`
raised by the `execute`/`fetchall` of lines 108-112. -/
structure Db where
  present : Bool
  rows : List (String × Option String)
  scanError : Option String

def asciiLower (c : Char) : Char :=
  if 65 ≤ c.toNat && c.toNat ≤ 90 then Char.ofNat (c.toNat + 32) else c

/-- SQLite `key LIKE 'composerData:%'`: prefix match, ASCII
case-insensitive (SQLite's default LIKE). -/
def likeComposerData (k : String) : Bool :=
  listStartsWith ("composerData:".data.map asciiLower) (k.data.map asciiLower)

/-- The rows returned by the scan query of lines 108-110. -/
def likeRows (db : Db) : List (String × Option String) :=
  db.rows.filter (fun r => likeComposerData r.1)

/-- The unsorted `conversations` list built by the scan loop (lines
104-157), in store-scan order. -/
def collectSummaries (db : Db) (startMs endMs : Int) : Except PyExc (List Summary) :=
  processRows db.rows startMs endMs (likeRows db)

/-- Stable insertion step for Python's `list.sort(key=...)`: `x` goes
before the first element whose key is strictly greater, hence after all
earlier elements with an equal key. -/
def insertByKey (x : Summary) : List Summary → List Summary
  | [] => [x]
  | y :: ys =>
    if y.timestamp_ms < x.timestamp_ms then y :: insertByKey x ys else x :: y :: ys

/-- Line 166: `conversations.sort(key=lambda x: x.get("timestamp_ms", 0))`
(every summary carries `timestamp_ms`, so the default is never used).
Python's sort is stable; a stable sort's output is unique, so stable
insertion sort is extensionally the same function. -/
def sortSummaries : List Summary → List Summary
  | [] => []
  | x :: xs => insertByKey x (sortSummaries xs)

/-- Store-connection lifecycle events, for the resource claims:
`sqlite3.connect` on line 107 and `conn.close()` on line 159. -/
inductive DbEvent where
  | connect
  | close
deriving DecidableEq, Repr

/-- Lines 86-168 from the computed window on: the public pipeline.
Returns the result (or the escaping exception) together with the trace of
connection events.  Note the `try` has no `finally`: `conn.close()` is
reached only on the normal path, and the `except sqlite3.Error` branch
returns `[]` without closing. -/
def extract_todays_conversations (db : Db) (startMs endMs : Int) :
    Except PyExc (List Summary) × List DbEvent :=
  if !db.present then (.ok [], [])
  else
    match db.scanError with
    | some _ => (.ok [], [.connect])
    | none =>
      match collectSummaries db startMs endMs with
      | .error (.sqliteError _) => (.ok [], [.connect])
      | .error e => (.error e, [.connect])
      | .ok pre => (.ok (sortSummaries pre), [.connect, .close])

/-! ## Spec-side companion definitions (for refinement-style claims) -/

/-- Spec-side, from section 4.3 of the spec as amended: the workspace one
key yields, trying the preferred `"workspace"`-segment heuristic and then
the more-than-4-segments fallback; `none` when the key does not match the
URI prefix or is too short for either rule. -/
def workspaceOfKey (k : String) : Option String :=
  if pyStartswith k "file:///" then
    let parts := (pySplitChar '/' (pyRemove k "file://").data).map String.mk
    match findWorkspaceIdx parts.length parts 0 with
    | some i => some (String.mk (joinWith ['/'] ((parts.take (i + 3)).map String.data)))
    | none =>
      if parts.length > 4 then
        some (String.mk (joinWith ['/'] ((parts.take 5).map String.data)))
      else none
  else none

/-- Spec-side, from section 4.2 of the spec: the text one message stub
contributes.  A stub qualifies when its type tag marks it user-authored,
its reference id is truthy, the secondary-store lookup at the composite
key yields a parseable body whose rich-text field decodes to non-empty
text; the contribution is that text, truncated.  Every failure along the
way (no row, `NULL`/empty body, unparseable body, empty or failed decode)
contributes nothing, so the scan continues. -/
def stubCandidate (store : List (String × Option String)) (cid : JVal)
    (b : JVal) : Option String :=
  match b with
  | .obj kvs =>
    if eqOne (getField kvs "type") then
      match getField kvs "bubbleId" with
      | some bid =>
        if truthy bid then
          match lookupKV store ("bubbleId:" ++ pyStr cid ++ ":" ++ pyStr bid) with
          | some (some v) =>
            if v = "" then none
            else
              match json_loads v with
              | some (.obj bkvs) =>
                let richtext := (getField bkvs "richText").getD (.str "")
                if truthy richtext then
                  match extractTextVal richtext with
                  | .ok text => if text = "" then none else some (truncateMessage text)
                  | .error _ => none
                else none
              | _ => none
          | _ => none
        else none
      | none => none
    else none
  | _ => none

/-- Concrete store used by the sort-property witness: one record created
at 7000 and two tied records created at 5000, in scan order 2 then 3. -/
def dbC6 : Db :=
  ⟨true, [("composerData:1", some "\x7b\"createdAt\": 7000\x7d"),
    ("composerData:2", some "\x7b\"createdAt\": 5000\x7d"),
    ("composerData:3", some "\x7b\"createdAt\": 5000, \"name\": \"tie\"\x7d")], none⟩

/-- Concrete secondary store for the first-user-message witness: only the
stub id `b2` has a stored body. -/
def storeC9 : List (String × Option String) :=
  [("bubbleId:c1:b2",
    some "\x7b\"richText\": \"\x7b\\\"root\\\": \x7b\\\"type\\\": \\\"text\\\", \\\"text\\\": \\\"hi\\\"\x7d\x7d\"\x7d")]

/-- Concrete stubs for the first-user-message witness: a non-user stub, a
user stub whose lookup finds no row, then a user stub with text. -/
def bubblesC9 : List JVal :=
  [.obj [("type", .num 2), ("bubbleId", .str "b0")],
   .obj [("type", .num 1), ("bubbleId", .str "missing")],
   .obj [("type", .num 1), ("bubbleId", .str "b2")]]

/-! ## Theorems -/

theorem length_mk (cs : List Char) : (String.mk cs).length = cs.length := rfl

theorem mk_append (a b : List Char) : String.mk a ++ String.mk b = String.mk (a ++ b) := rfl

/-- C1: the spec's worked example is off by one segment.  On the key
`file:///Users/a/workspace/proj/src/x.py` the code returns
`/Users/a/workspace/proj/src` — the `"workspace"` segment plus the next
two segments, exactly as the spec's own heuristic sentence describes —
not `/Users/a/workspace/proj` as the spec's example states. -/
theorem c1_counterexample :
    get_workspace_from_uri ["file:///Users/a/workspace/proj/src/x.py"] =
      some "/Users/a/workspace/proj/src" ∧
    get_workspace_from_uri ["file:///Users/a/workspace/proj/src/x.py"] ≠
      some "/Users/a/workspace/proj" := by
  refine ⟨rfl, ?_⟩
  intro h
  rw [show get_workspace_from_uri ["file:///Users/a/workspace/proj/src/x.py"] =
      some "/Users/a/workspace/proj/src" from rfl] at h
  simp at h

/-- C1 (amended): on a mapping whose key is
`file:///Users/a/workspace/proj/src/x.py` the inferred workspace is
`/Users/a/workspace/proj/src` (the path truncated at the `"workspace"`
segment plus the next two segments); on a mapping whose only key is
`file:///a/b/c` (path of 4 segments counting the leading empty one) no
workspace is inferred. -/
theorem c1_amended :
    get_workspace_from_uri ["file:///Users/a/workspace/proj/src/x.py"] =
      some "/Users/a/workspace/proj/src" ∧
    get_workspace_from_uri ["file:///a/b/c"] = none :=
  ⟨rfl, rfl⟩

/-- C2: the decoder is not total.  On the well-formed JSON document
`\x7b"root": 5\x7d` the traversal calls `.get` on the integer `5`,
raising `AttributeError`, which the `except (json.JSONDecodeError,
KeyError, TypeError)` of line 40 does not catch — the exception escapes
`extract_text_from_richtext` instead of yielding `""`. -/
theorem c2_failing_eval :
    extract_text_from_richtext "\x7b\"root\": 5\x7d" = .error .attributeError ∧
    extract_text_from_richtext "\x7b\"root\": \x7b\"children\": [5]\x7d\x7d" =
      .error .attributeError :=
  ⟨rfl, rfl⟩

/-- C3: the pipeline lets exceptions escape.  A store holding the single
record `("composerData:1", "5")` — a well-formed JSON value that is not an
object — makes `data.get("createdAt", 0)` (line 122) raise
`AttributeError`; only `json.JSONDecodeError` (per record) and
`sqlite3.Error` (whole scan) are caught, so the exception escapes
`extract_todays_conversations`, and the connection is not closed. -/
theorem c3_failing_eval :
    extract_todays_conversations ⟨true, [("composerData:1", some "5")], none⟩ 0 86400000 =
      (.error .attributeError, [.connect]) :=
  rfl

/-- C5: first-user-message truncation (line 63).  Text longer than 500
characters is cut to its first 500 characters plus the 3-character
marker `"..."`, total length exactly 503; text of at most 500 characters
is returned unchanged. -/
theorem c5_truncation (t : String) :
    (500 < t.length → truncateMessage t = String.mk (t.data.take 500) ++ "..." ∧
      (truncateMessage t).length = 503) ∧
    (t.length ≤ 500 → truncateMessage t = t) := by
  constructor
  · intro h
    refine ⟨by simp [truncateMessage, h], ?_⟩
    have hlen : t.data.length = t.length := rfl
    rw [truncateMessage, if_pos h,
      show ("..." : String) = String.mk ['.', '.', '.'] from rfl,
      mk_append, length_mk, List.length_append, List.length_take]
    simp only [List.length_cons, List.length_nil]
    omega
  · intro h
    rw [truncateMessage, if_neg (by omega)]

set_option maxRecDepth 4000 in
/-- C5 witness: a concrete 501-character text truncates to length 503. -/
theorem c5_truncation_witness :
    500 < (String.mk (List.replicate 501 'a')).length ∧
    (truncateMessage (String.mk (List.replicate 501 'a'))).length = 503 :=
  ⟨by decide, ((c5_truncation (String.mk (List.replicate 501 'a'))).1 (by decide)).2⟩

/-- C7: the claim that only the first `file:///` key is ever examined is
false.  With keys `["file:///a/b/c", "file:///Users/a/workspace/proj/src/x.py"]`
the first matching key yields neither heuristic, the loop falls through to
the second key, and a workspace is inferred from it — whereas on the first
key alone the result is `none`. -/
theorem c7_counterexample :
    get_workspace_from_uri ["file:///a/b/c"] = none ∧
    get_workspace_from_uri
      ["file:///a/b/c", "file:///Users/a/workspace/proj/src/x.py"] =
      some "/Users/a/workspace/proj/src" :=
  ⟨rfl, rfl⟩

/-- C7 (amended): keys are examined in iteration order and the result is
determined by the first key that both matches the `file:///` prefix and
yields a workspace under one of the two heuristics; matching keys that
yield nothing are skipped, and `none` is returned only when no key
yields a workspace. -/
theorem c7_first_yielding_key (ks : List String) :
    get_workspace_from_uri ks = ks.findSome? workspaceOfKey := by
  induction ks with
  | nil => rfl
  | cons k rest ih =>
    rw [List.findSome?_cons]
    by_cases hpre : pyStartswith k "file:///"
    · simp only [get_workspace_from_uri, workspaceOfKey, if_pos hpre]
      cases hidx : findWorkspaceIdx
          ((pySplitChar '/' (pyRemove k "file://").data).map String.mk).length
          ((pySplitChar '/' (pyRemove k "file://").data).map String.mk) 0 with
      | some i => simp only [hidx]
      | none =>
        by_cases hlen : ((pySplitChar '/' (pyRemove k "file://").data).map String.mk).length > 4
        · simp only [hidx, if_pos hlen]
        · simp only [hidx, if_neg hlen, ih]
    · simp only [get_workspace_from_uri, workspaceOfKey, if_neg hpre, ih]

/-- C8: the connection is not released on every exit path.  When
`execute`/`fetchall` raises `sqlite3.Error` after the connection was
opened, the `except` branch prints and returns `[]` without reaching
`conn.close()` (there is no `finally`), so the trace holds a `connect`
event but no `close`. -/
theorem c8_counterexample :
    extract_todays_conversations ⟨true, [], some "disk I/O error"⟩ 0 86400000 =
      (.ok [], [.connect]) ∧
    DbEvent.close ∉ [DbEvent.connect] :=
  ⟨rfl, by decide⟩

/-- C8 (amended): when the store file exists the connection is opened,
and it is released only on the normal-completion path; on a storage
error during the scan, or on any escaping exception, the function exits
without closing the connection. -/
theorem c8_release_paths (db : Db) (startMs endMs : Int) (hpres : db.present = true) :
    (∀ pre, db.scanError = none → collectSummaries db startMs endMs = .ok pre →
      (extract_todays_conversations db startMs endMs).2 = [.connect, .close]) ∧
    (∀ m, db.scanError = some m →
      (extract_todays_conversations db startMs endMs).2 = [.connect]) ∧
    (∀ exc, db.scanError = none → collectSummaries db startMs endMs = .error exc →
      (extract_todays_conversations db startMs endMs).2 = [.connect]) := by
  refine ⟨?_, ?_, ?_⟩
  · intro pre hscan hcoll
    simp [extract_todays_conversations, hpres, hscan, hcoll]
  · intro m hscan
    simp [extract_todays_conversations, hpres, hscan]
  · intro exc hscan hcoll
    cases exc <;> simp [extract_todays_conversations, hpres, hscan, hcoll]

/-- C8 witness: on a present, empty, error-free store the trace is
`[connect, close]`; on a store whose scan raises, it is `[connect]`. -/
theorem c8_release_paths_witness :
    (extract_todays_conversations ⟨true, [], none⟩ 0 86400000).2 = [.connect, .close] ∧
    (extract_todays_conversations ⟨true, [], some "boom"⟩ 0 86400000).2 = [.connect] :=
  ⟨(c8_release_paths ⟨true, [], none⟩ 0 86400000 rfl).1 [] rfl rfl,
   (c8_release_paths ⟨true, [], some "boom"⟩ 0 86400000 rfl).2.1 "boom" rfl⟩

/-- C10: a stub is treated as user-authored exactly by the test
`bubble.get("type") == 1` of line 47 (under Python `==`, where `bool` is
an `int` subclass, so `True` also compares equal to 1; among JSON values
the test otherwise demands the integer 1 itself).  A stub whose type is
absent, a different integer, or the string `"1"`, or whose `bubbleId` is
absent or falsy, contributes no first-user-message text and the scan
continues over the later stubs. -/
theorem c10_user_stub_gate (store : List (String × Option String)) (cid : JVal)
    (kvs : List (String × JVal)) (rest : List JVal) :
    (getField kvs "type" = none →
      scanBubbles store cid (.obj kvs :: rest) = scanBubbles store cid rest) ∧
    (∀ n : Int, n ≠ 1 → getField kvs "type" = some (.num n) →
      scanBubbles store cid (.obj kvs :: rest) = scanBubbles store cid rest) ∧
    (getField kvs "type" = some (.str "1") →
      scanBubbles store cid (.obj kvs :: rest) = scanBubbles store cid rest) ∧
    (getField kvs "bubbleId" = none →
      scanBubbles store cid (.obj kvs :: rest) = scanBubbles store cid rest) ∧
    (∀ bid, getField kvs "bubbleId" = some bid → truthy bid = false →
      scanBubbles store cid (.obj kvs :: rest) = scanBubbles store cid rest) := by
  refine ⟨?_, ?_, ?_, ?_, ?_⟩
  · intro h
    simp [scanBubbles, h, eqOne]
  · intro n hn h
    simp [scanBubbles, h, eqOne, hn]
  · intro h
    simp [scanBubbles, h, eqOne]
  · intro h
    by_cases ht : eqOne (getField kvs "type")
    · simp [scanBubbles, ht, h]
    · simp [scanBubbles, ht]
  · intro bid h hfalsy
    by_cases ht : eqOne (getField kvs "type")
    · simp [scanBubbles, ht, h, hfalsy]
    · simp [scanBubbles, ht]

/-- C10 witness: a stub typed with the integer 2 is skipped and the scan
continues (here: immediately terminating with the empty default). -/
theorem c10_user_stub_gate_witness :
    scanBubbles [] .null [.obj [("type", .num 2)]] = scanBubbles [] .null [] :=
  (c10_user_stub_gate [] .null [("type", .num 2)] []).2.1 2 (by decide) rfl

theorem windowCheck_num (startMs endMs : Int) (c u : JVal) (nc nu : Int)
    (hc : pyNumVal c = some nc) (hu : pyNumVal u = some nu) :
    windowCheck startMs endMs c u =
      .ok ((decide (startMs ≤ nc) && decide (nc < endMs)) ||
           (decide (startMs ≤ nu) && decide (nu < endMs))) := by
  cases hb : (decide (startMs ≤ nc) && decide (nc < endMs)) <;>
    simp [windowCheck, chainLeLt, hc, hu, hb]

/-- C4: a parseable record object with numeric (or defaulted-to-0)
`createdAt`/`lastUpdatedAt`, whose summary construction succeeds, yields
a summary if and only if one of the two timestamps lies in the half-open
window `[startMs, endMs)`; in particular a record whose `lastUpdatedAt`
equals `endMs` exactly while `createdAt` is outside the window is
excluded (see the witness). -/
theorem c4_window_membership (store : List (String × Option String))
    (startMs endMs : Int) (v : String) (kvs : List (String × JVal)) (c u : Int)
    (hv : v ≠ "")
    (hparse : json_loads v = some (.obj kvs))
    (hc : pyNumVal ((getField kvs "createdAt").getD (.num 0)) = some c)
    (hu : pyNumVal ((getField kvs "lastUpdatedAt").getD (.num 0)) = some u)
    (hbuild : ∃ s, buildSummary store kvs = .ok s) :
    (∃ s, processRecord store startMs endMs (some v) = .ok (some s)) ↔
      ((startMs ≤ c ∧ c < endMs) ∨ (startMs ≤ u ∧ u < endMs)) := by
  obtain ⟨s0, hs0⟩ := hbuild
  have hw := windowCheck_num startMs endMs _ _ c u hc hu
  have key : processRecord store startMs endMs (some v) =
      if (startMs ≤ c ∧ c < endMs) ∨ (startMs ≤ u ∧ u < endMs) then .ok (some s0)
      else .ok none := by
    by_cases hcond : (startMs ≤ c ∧ c < endMs) ∨ (startMs ≤ u ∧ u < endMs)
    · have hb : ((decide (startMs ≤ c) && decide (c < endMs)) ||
          (decide (startMs ≤ u) && decide (u < endMs))) = true := by
        simp only [Bool.or_eq_true, Bool.and_eq_true, decide_eq_true_eq]
        tauto
      rw [hb] at hw
      simp [processRecord, hv, hparse, hw, hs0, if_pos hcond]
    · have hb : ((decide (startMs ≤ c) && decide (c < endMs)) ||
          (decide (startMs ≤ u) && decide (u < endMs))) = false := by
        simp only [Bool.or_eq_false_iff, Bool.and_eq_false_iff, decide_eq_false_iff_not]
        push_neg at hcond
        constructor
        · rcases Int.lt_or_le c startMs with h1 | h1
          · exact Or.inl (by omega)
          · exact Or.inr (by omega)
        · rcases Int.lt_or_le u startMs with h1 | h1
          · exact Or.inl (by omega)
          · exact Or.inr (by omega)
      rw [hb] at hw
      simp [processRecord, hv, hparse, hw, if_neg hcond]
  constructor
  · rintro ⟨s, hs⟩
    by_contra hcon
    rw [key, if_neg hcon] at hs
    simp at hs
  · intro hcond
    exact ⟨s0, by rw [key, if_pos hcond]⟩

/-- C4 witness (the boundary case the claim singles out): with window
`[1000, 86401000)`, a record created at 500 and last updated exactly at
end-of-day 86401000 is excluded. -/
theorem c4_window_membership_witness :
    ¬ ∃ s, processRecord [] 1000 86401000
      (some "\x7b\"createdAt\": 500, \"lastUpdatedAt\": 86401000\x7d") = .ok (some s) := by
  intro h
  have hcond := (c4_window_membership [] 1000 86401000
    "\x7b\"createdAt\": 500, \"lastUpdatedAt\": 86401000\x7d"
    [("createdAt", .num 500), ("lastUpdatedAt", .num 86401000)] 500 86401000
    (by decide) rfl rfl rfl ⟨_, rfl⟩).mp h
  omega

theorem mem_insertByKey {z x : Summary} {s : List Summary} :
    z ∈ insertByKey x s ↔ z = x ∨ z ∈ s := by
  induction s with
  | nil => simp [insertByKey]
  | cons y ys ih =>
    rw [insertByKey]
    by_cases hlt : y.timestamp_ms < x.timestamp_ms
    · rw [if_pos hlt]
      simp only [List.mem_cons, ih]
      tauto
    · rw [if_neg hlt]
      simp only [List.mem_cons]

theorem pairwise_insertByKey {x : Summary} {s : List Summary}
    (h : s.Pairwise (fun a b => a.timestamp_ms ≤ b.timestamp_ms)) :
    (insertByKey x s).Pairwise (fun a b => a.timestamp_ms ≤ b.timestamp_ms) := by
  induction s with
  | nil => simp [insertByKey]
  | cons y ys ih =>
    rw [List.pairwise_cons] at h
    rw [insertByKey]
    by_cases hlt : y.timestamp_ms < x.timestamp_ms
    · rw [if_pos hlt]
      rw [List.pairwise_cons]
      refine ⟨?_, ih h.2⟩
      intro z hz
      rcases mem_insertByKey.mp hz with hzx | hzs
      · subst hzx
        omega
      · exact h.1 z hzs
    · rw [if_neg hlt]
      rw [List.pairwise_cons]
      refine ⟨?_, List.Pairwise.cons h.1 h.2⟩
      intro z hz
      simp at hz
      rcases hz with hzy | hzs
      · subst hzy
        omega
      · have := h.1 z hzs
        omega

theorem pairwise_sortSummaries (l : List Summary) :
    (sortSummaries l).Pairwise (fun a b => a.timestamp_ms ≤ b.timestamp_ms) := by
  induction l with
  | nil => simp [sortSummaries]
  | cons x xs ih => exact pairwise_insertByKey ih

theorem filter_insertByKey (x : Summary) (t : Int) (s : List Summary) :
    (insertByKey x s).filter (fun y => y.timestamp_ms == t) =
      if x.timestamp_ms == t then x :: s.filter (fun y => y.timestamp_ms == t)
      else s.filter (fun y => y.timestamp_ms == t) := by
  induction s with
  | nil =>
    by_cases hx : x.timestamp_ms == t <;> simp [insertByKey, List.filter, hx]
  | cons y ys ih =>
    rw [insertByKey]
    by_cases hlt : y.timestamp_ms < x.timestamp_ms
    · rw [if_pos hlt]
      by_cases hx : x.timestamp_ms == t
      · have hy : (y.timestamp_ms == t) = false := by
          have hxt : x.timestamp_ms = t := by simpa using hx
          have : y.timestamp_ms ≠ t := by omega
          simpa using this
        simp only [List.filter_cons, hy, ih, if_pos hx, hx]
        simp
      · simp only [List.filter_cons, ih, if_neg hx, hx]
        simp
    · rw [if_neg hlt]
      by_cases hx : x.timestamp_ms == t <;> simp [List.filter_cons, hx]

theorem filter_sortSummaries (l : List Summary) (t : Int) :
    (sortSummaries l).filter (fun y => y.timestamp_ms == t) =
      l.filter (fun y => y.timestamp_ms == t) := by
  induction l with
  | nil => rfl
  | cons x xs ih =>
    rw [sortSummaries, filter_insertByKey]
    by_cases hx : x.timestamp_ms == t <;> simp [List.filter_cons, hx, ih]

/-- C6: whenever the pipeline completes normally, its result is sorted
ascending by the raw creation timestamp (`timestamp_ms`, which holds 0
for a record whose `createdAt` was absent, via the `data.get("createdAt",
0)` default), and for every timestamp value the equal-timestamp records
appear in exactly their store-scan order (`pre`, the list built by the
scan loop) — the sort is stable. -/
theorem c6_sorted_stable (db : Db) (startMs endMs : Int) (res pre : List Summary)
    (ev : List DbEvent)
    (hpres : db.present = true) (hscan : db.scanError = none)
    (hcoll : collectSummaries db startMs endMs = .ok pre)
    (hp : extract_todays_conversations db startMs endMs = (.ok res, ev)) :
    (∀ i (h1 : i + 1 < res.length),
      (res.get ⟨i, Nat.lt_of_succ_lt h1⟩).timestamp_ms ≤
        (res.get ⟨i + 1, h1⟩).timestamp_ms) ∧
    (∀ t : Int, res.filter (fun x => x.timestamp_ms == t) =
      pre.filter (fun x => x.timestamp_ms == t)) := by
  have hcomp : extract_todays_conversations db startMs endMs =
      (.ok (sortSummaries pre), [.connect, .close]) := by
    simp [extract_todays_conversations, hpres, hscan, hcoll]
  have hres : res = sortSummaries pre := by
    rw [hcomp] at hp
    have h1 := congrArg Prod.fst hp
    simpa using h1.symm
  subst hres
  constructor
  · intro i h1
    exact List.pairwise_iff_get.mp (pairwise_sortSummaries pre)
      ⟨i, Nat.lt_of_succ_lt h1⟩ ⟨i + 1, h1⟩ (by simp [Fin.lt_def])
  · intro t
    exact filter_sortSummaries pre t

/-- C6 witness: a store with two equal-timestamp records (5000, scan
order 2 then 3) and a later-created one (7000) sorts ascending with the
tie kept in scan order. -/
theorem c6_sorted_stable_witness :
    ∃ res pre ev,
      collectSummaries dbC6 1000 86401000 = .ok pre ∧
      extract_todays_conversations dbC6 1000 86401000 = (.ok res, ev) ∧
      (∀ i (h1 : i + 1 < res.length),
        (res.get ⟨i, Nat.lt_of_succ_lt h1⟩).timestamp_ms ≤
          (res.get ⟨i + 1, h1⟩).timestamp_ms) := by
  refine ⟨_, _, _, rfl, rfl, ?_⟩
  exact (c6_sorted_stable dbC6 1000 86401000 _ _ _ rfl rfl rfl rfl).1

theorem scanBubbles_cons_cases (store : List (String × Option String)) (cid : JVal)
    (b : JVal) (rest : List JVal) :
    (stubCandidate store cid b = none ∧
      (scanBubbles store cid (b :: rest) = scanBubbles store cid rest ∨
       ∃ e, scanBubbles store cid (b :: rest) = .error e)) ∨
    (∃ t, stubCandidate store cid b = some t ∧
      scanBubbles store cid (b :: rest) = .ok t) := by
  cases b with
  | obj kvs =>
    simp only [scanBubbles, stubCandidate]
    by_cases h1 : eqOne (getField kvs "type")
    case neg =>
      simp only [if_neg h1]
      exact Or.inl ⟨by trivial, Or.inl (by trivial)⟩
    simp only [if_pos h1]
    cases h2 : getField kvs "bubbleId" with
    | none => exact Or.inl ⟨by trivial, Or.inl (by trivial)⟩
    | some bid =>
      by_cases h3 : truthy bid
      case neg =>
        simp only [Bool.not_eq_true] at h3
        simp only [h3, Bool.false_eq_true, if_false]
        exact Or.inl ⟨by trivial, Or.inl (by trivial)⟩
      simp only [h3, if_true]
      cases h4 : lookupKV store ("bubbleId:" ++ pyStr cid ++ ":" ++ pyStr bid) with
      | none => exact Or.inl ⟨by trivial, Or.inl (by trivial)⟩
      | some row =>
        cases row with
        | none => exact Or.inl ⟨by trivial, Or.inl (by trivial)⟩
        | some v =>
          by_cases h5 : v = ""
          case pos =>
            simp only [if_pos h5]
            exact Or.inl ⟨by trivial, Or.inl (by trivial)⟩
          simp only [if_neg h5]
          cases h6 : json_loads v with
          | none => exact Or.inl ⟨by trivial, Or.inl (by trivial)⟩
          | some bv =>
            cases bv with
            | obj bkvs =>
              by_cases h7 : truthy ((getField bkvs "richText").getD (.str ""))
              case neg =>
                simp only [Bool.not_eq_true] at h7
                simp only [h7, Bool.false_eq_true, if_false]
                exact Or.inl ⟨by trivial, Or.inl (by trivial)⟩
              simp only [h7, if_true]
              cases h8 : extractTextVal ((getField bkvs "richText").getD (.str "")) with
              | ok text =>
                by_cases h9 : text = ""
                case pos =>
                  simp only [if_pos h9]
                  exact Or.inl ⟨by trivial, Or.inl (by trivial)⟩
                simp only [if_neg h9]
                exact Or.inr ⟨truncateMessage text, by trivial, by trivial⟩
              | error e =>
                by_cases h10 : bubbleCaught e = true
                · simp only [h10, if_true]
                  exact Or.inl ⟨by trivial, Or.inl (by trivial)⟩
                · simp only [Bool.not_eq_true] at h10
                  simp only [h10, Bool.false_eq_true, if_false]
                  exact Or.inl ⟨by trivial, Or.inr ⟨e, by trivial⟩⟩
            | null => exact Or.inl ⟨by trivial, Or.inr ⟨.attributeError, by trivial⟩⟩
            | bool b2 => exact Or.inl ⟨by trivial, Or.inr ⟨.attributeError, by trivial⟩⟩
            | num n => exact Or.inl ⟨by trivial, Or.inr ⟨.attributeError, by trivial⟩⟩
            | str s2 => exact Or.inl ⟨by trivial, Or.inr ⟨.attributeError, by trivial⟩⟩
            | arr xs => exact Or.inl ⟨by trivial, Or.inr ⟨.attributeError, by trivial⟩⟩
  | null => exact Or.inl ⟨by trivial, Or.inr ⟨.attributeError, by trivial⟩⟩
  | bool b2 => exact Or.inl ⟨by trivial, Or.inr ⟨.attributeError, by trivial⟩⟩
  | num n => exact Or.inl ⟨by trivial, Or.inr ⟨.attributeError, by trivial⟩⟩
  | str s2 => exact Or.inl ⟨by trivial, Or.inr ⟨.attributeError, by trivial⟩⟩
  | arr xs => exact Or.inl ⟨by trivial, Or.inr ⟨.attributeError, by trivial⟩⟩

/-- C9: whenever the first-user-message extraction completes without an
exception, its result is the contribution of the first stub, in given
order, that yields non-empty decoded text (`stubCandidate`, already
truncated), and `""` when no stub yields one — stubs whose lookup fails
or whose text decodes to empty are skipped and the scan continues. -/
theorem c9_first_user_scan (store : List (String × Option String)) (cid : JVal)
    (bs : List JVal) (r : String)
    (hok : get_first_user_message store cid (.arr bs) = .ok r) :
    r = (bs.findSome? (stubCandidate store cid)).getD "" := by
  simp only [get_first_user_message] at hok
  induction bs generalizing r with
  | nil =>
    simp only [scanBubbles] at hok
    rw [List.findSome?_nil]
    exact (Except.ok.inj hok).symm
  | cons b rest ih =>
    rcases scanBubbles_cons_cases store cid b rest with
      ⟨hnone, hskip | ⟨e, herr⟩⟩ | ⟨t, hsome, hhit⟩
    · rw [hskip] at hok
      rw [List.findSome?_cons, hnone]
      exact ih r hok
    · rw [herr] at hok
      exact absurd hok (by simp)
    · rw [hhit] at hok
      rw [List.findSome?_cons, hsome]
      exact (Except.ok.inj hok).symm

/-- C9 witness: the scan skips a non-user stub and a user stub whose
lookup finds no row, then returns the third stub's decoded text. -/
theorem c9_first_user_scan_witness :
    get_first_user_message storeC9 (.str "c1") (.arr bubblesC9) = .ok "hi" ∧
    "hi" = (bubblesC9.findSome? (stubCandidate storeC9 (.str "c1"))).getD "" :=
  ⟨rfl, c9_first_user_scan storeC9 (.str "c1") bubblesC9 "hi" rfl⟩

end CursorJournal
